import Mathlib

/-!
Verification development for the grafana-plugin-api repository.

The embedding follows the Go source:
* internal/analyzer/log_analyzer.go : AnalyzeLogs, CalculateKLDivergence,
  CalculateRelativeChanges, the smoothing constant;
* internal/api/handler.go (and the net/http variant of the same handler):
  QueryLogs, containsStr, findSubstring, the three fallback payloads.

Modelling conventions:
* a Go map[string]uint64 is an association list with one entry per key;
  the list order stands for the (run-dependent) map iteration order;
* uint64 counts are modelled as Nat (the analyzer sums realistic log counts,
  wrap-around is not reachable in the modelled domain);
* float64 arithmetic is modelled exactly over the reals; Real.log stands for
  math.Log;
* a fallible Go call returns Except String, the String being err.Error();
* time.Time instants are Int nanoseconds since the epoch, as in the Go
  runtime representation; time.Time.Sub is integer subtraction.
-/

namespace GrafanaPluginApi

/-- A Go map from template ID to occurrence count, with its iteration order
made explicit as a list of key-value pairs. -/
abbrev CountMap := List (String × Nat)

/-- The key set of a count map, in iteration order. -/
def keys (m : CountMap) : List String := m.map Prod.fst

/-- Go map read with zero default: counts[templateID] for an absent key is 0. -/
def lookupCount (m : CountMap) (t : String) : Nat := (m.lookup t).getD 0

/-- The total loop of CalculateKLDivergence and CalculateRelativeChanges:
sum of all values of the map. -/
def totalCount (m : CountMap) : Nat := (m.map Prod.snd).sum

/-- The allTemplates union built in both scoring functions: every key of the
current map, then every key of the baseline map not already present. -/
def allTemplates (currentCounts baselineCounts : CountMap) : List String :=
  keys currentCounts ++
    (keys baselineCounts).filter (fun t => !(keys currentCounts).contains t)

/-- The process-wide constant from log_analyzer.go: const smoothing = 1e-10. -/
def smoothing : ℝ := 1e-10

/-- CalculateKLDivergence from log_analyzer.go: per-template KL divergence
contribution, over the union of template IDs, with additive smoothing. -/
noncomputable def CalculateKLDivergence
    (currentCounts baselineCounts : CountMap) : List (String × ℝ) :=
  let currentTotal := totalCount currentCounts
  let baselineTotal := totalCount baselineCounts
  if currentTotal = 0 ∨ baselineTotal = 0 then []
  else
    let allT := allTemplates currentCounts baselineCounts
    allT.map fun templateID =>
      let currentCount := lookupCount currentCounts templateID
      let baselineCount := lookupCount baselineCounts templateID
      let pCurrent := ((currentCount : ℝ) + smoothing) /
        ((currentTotal : ℝ) + smoothing * (allT.length : ℝ))
      let pBaseline := ((baselineCount : ℝ) + smoothing) /
        ((baselineTotal : ℝ) + smoothing * (allT.length : ℝ))
      (templateID, pCurrent * Real.log (pCurrent / pBaseline))

/-- CalculateRelativeChanges from log_analyzer.go: per-template relative
frequency change, over the union of template IDs, denominator smoothed. -/
noncomputable def CalculateRelativeChanges
    (currentCounts baselineCounts : CountMap) : List (String × ℝ) :=
  let currentTotal := totalCount currentCounts
  let baselineTotal := totalCount baselineCounts
  if currentTotal = 0 ∨ baselineTotal = 0 then []
  else
    let allT := allTemplates currentCounts baselineCounts
    allT.map fun templateID =>
      let currentCount := lookupCount currentCounts templateID
      let baselineCount := lookupCount baselineCounts templateID
      let freqCurrent := (currentCount : ℝ) / (currentTotal : ℝ)
      let freqBaseline := (baselineCount : ℝ) / (baselineTotal : ℝ)
      (templateID, (freqCurrent - freqBaseline) / (freqBaseline + smoothing))

/-- The baseline-window derivation at the top of AnalyzeLogs:
windowDuration := endTime.Sub(startTime); baselineEnd := startTime;
baselineStart := baselineEnd.Add(-windowDuration).
Returns (baselineStart, baselineEnd). -/
def planBaselineWindow (startTime endTime : Int) : Int × Int :=
  let windowDuration := endTime - startTime
  let baselineEnd := startTime
  let baselineStart := baselineEnd + (-windowDuration)
  (baselineStart, baselineEnd)

/-- The comparison used by sort.Slice in AnalyzeLogs:
sortedTemplates[i].klValue > sortedTemplates[j].klValue, read as the
weak descending order on the kl value (ties allowed on either side). -/
def klGE (a b : String × ℝ) : Prop := b.2 ≤ a.2

noncomputable instance : DecidableRel klGE := fun a b => Real.decidableLE b.2 a.2

instance : IsTotal (String × ℝ) klGE := ⟨fun a b => le_total b.2 a.2⟩

instance : IsTrans (String × ℝ) klGE := ⟨fun _ _ _ h₁ h₂ => le_trans h₂ h₁⟩

/-- The sort-then-truncate step of AnalyzeLogs: sort by kl value descending,
keep at most topN = 10 entries. The input list order is the iteration order
of the klContributions map; the sort is one deterministic refinement of the
unstable sort.Slice used by the source. -/
noncomputable def sortedTopTemplates (klContributions : List (String × ℝ)) :
    List (String × ℝ) :=
  (List.insertionSort klGE klContributions).take 10

/-- The extracted topTemplateIDs slice of AnalyzeLogs. -/
noncomputable def topTemplateIDs (klContributions : List (String × ℝ)) :
    List String :=
  (sortedTopTemplates klContributions).map Prod.fst

/-- analyzer.LogGroup from log_analyzer.go. -/
structure LogGroup where
  representativeLogs : List String
  relativeChange : ℝ
  klContribution : ℝ
  templateID : String

/-- The outcomes of the three ClickHouse calls made by one AnalyzeLogs run:
GetTemplateCounts for the baseline window, GetTemplateCounts for the current
window, and GetRepresentativeLogs as a function of the requested IDs. -/
structure StoreResults where
  baselineCounts : Except String CountMap
  currentCounts : Except String CountMap
  representatives : List String → Except String (List (String × List String))

/-- The group-building loop at the end of AnalyzeLogs: for each selected
template ID, emit a LogGroup only when the representatives map has an entry
for it; score maps are read with the Go zero default. -/
noncomputable def buildLogGroups (topIDs : List String)
    (representatives : List (String × List String))
    (relativeChanges klContributions : List (String × ℝ)) : List LogGroup :=
  topIDs.filterMap fun templateID =>
    match representatives.lookup templateID with
    | some logs => some
        { representativeLogs := logs
          relativeChange := (relativeChanges.lookup templateID).getD 0
          klContribution := (klContributions.lookup templateID).getD 0
          templateID := templateID }
    | none => none

/-- AnalyzeLogs from log_analyzer.go, as a function of the storage outcomes:
fetch baseline counts, fetch current counts (each storage failure propagates
as-is), score, sort, truncate to 10, short-circuit on an empty ranking, fetch
representative logs for the selected IDs, build the groups. -/
noncomputable def AnalyzeLogs (store : StoreResults) :
    Except String (List LogGroup) :=
  match store.baselineCounts with
  | .error e => .error e
  | .ok baselineCounts =>
    match store.currentCounts with
    | .error e => .error e
    | .ok currentCounts =>
      let klContributions := CalculateKLDivergence currentCounts baselineCounts
      let relativeChanges := CalculateRelativeChanges currentCounts baselineCounts
      let sortedTemplates := sortedTopTemplates klContributions
      if sortedTemplates.isEmpty then .ok []
      else
        let topIDs := topTemplateIDs klContributions
        match store.representatives topIDs with
        | .error e => .error e
        | .ok representatives =>
          .ok (buildLogGroups topIDs representatives relativeChanges klContributions)

/-- The list of groups carried by a successful result, empty on error. -/
noncomputable def resultGroups (r : Except String (List LogGroup)) :
    List LogGroup :=
  (r.toOption).getD []

/-- beginsWith sub of the byte-window comparison s[i:i+len(substr)] == substr
at one position, at character granularity (equivalent on UTF-8 text). -/
def beginsWith : List Char → List Char → Bool
  | _, [] => true
  | [], _ :: _ => false
  | c :: cs, d :: ds => c == d && beginsWith cs ds

/-- findSubstring from handler.go: scan every start position for a match. -/
def findSubstring (substr : List Char) : List Char → Bool
  | [] => beginsWith [] substr
  | c :: cs => beginsWith (c :: cs) substr || findSubstring substr cs

/-- containsStr from handler.go. -/
def containsStr (s substr : String) : Bool :=
  decide (substr.length ≤ s.length) && findSubstring substr.data s.data

/-- Character-level starts-with on strings (strings.HasPrefix semantics),
used to phrase the marking invariant. -/
def strStartsWith (s pre : String) : Bool := beginsWith s.data pre.data

/-- The connectivity-branch mock payload of QueryLogs in handler.go. -/
noncomputable def connectivityMockGroups : List LogGroup :=
  [ { representativeLogs :=
        [ "⚠️  MOCK DATA: ClickHouse database is not connected"
        , "📝 Example anomaly: ERROR: Out of memory on node-3"
        , "📝 Example anomaly: WARNING: High CPU usage detected (95%)"
        , "📝 Example anomaly: CRITICAL: Disk space below 5%" ]
      relativeChange := 2.5
      klContribution := 0.8
      templateID := "mock_error_template" }
  , { representativeLogs :=
        [ "📝 Example pattern: Connection timeout after 30s"
        , "📝 Example pattern: Retrying connection attempt 3/5" ]
      relativeChange := 1.2
      klContribution := 0.4
      templateID := "mock_warning_template" }
  , { representativeLogs :=
        [ "📝 Example info: Service started successfully"
        , "📝 Example info: Health check passed" ]
      relativeChange := 0.3
      klContribution := 0.1
      templateID := "mock_info_template" } ]

/-- The schema-missing-branch payload of QueryLogs in handler.go. -/
noncomputable def schemaMissingGroups : List LogGroup :=
  [ { representativeLogs :=
        [ "⚠️  Required tables missing. Please restart the service to auto-create tables."
        , "📝 MOCK DATA: These are example logs shown because tables don't exist yet" ]
      relativeChange := 0.0
      klContribution := 0.0
      templateID := "error" } ]

/-- The generic-error-branch payload of QueryLogs in handler.go. -/
noncomputable def genericErrorGroups (errMsg : String) : List LogGroup :=
  [ { representativeLogs :=
        [ "⚠️  Hover log database encountered an error. Please contact support."
        , "Error details: " ++ errMsg ]
      relativeChange := 0.0
      klContribution := 0.0
      templateID := "error" } ]

/-- The error-classification ladder of QueryLogs in handler.go: connectivity
substrings first, then missing-table substrings, otherwise generic. -/
noncomputable def classifyAndFallback (errMsg : String) : List LogGroup :=
  if containsStr errMsg "Connection refused" || containsStr errMsg "connect" ||
      containsStr errMsg "timeout" then
    connectivityMockGroups
  else if containsStr errMsg "does not exist" ||
      containsStr errMsg "UNKNOWN_TABLE" then
    schemaMissingGroups
  else
    genericErrorGroups errMsg

/-- api.QueryLogsRequest after JSON decoding. -/
structure QueryLogsRequest where
  org : String
  dashboard : String
  panelTitle : String
  metricName : String
  startTime : Int
  endTime : Int

/-- api.LogGroup, the externally visible group shape (template ID and kl
contribution do not cross this boundary). -/
structure ApiLogGroup where
  representativeLogs : List String
  relativeChange : ℝ

/-- The handler response: 200 with a payload, or a 4xx error body. -/
inductive HttpResponse where
  | ok (logGroups : List ApiLogGroup)
  | badRequest (error message : String)

/-- The response-conversion loop of QueryLogs. -/
noncomputable def toApiGroups (groups : List LogGroup) : List ApiLogGroup :=
  groups.map fun g =>
    { representativeLogs := g.representativeLogs
      relativeChange := g.relativeChange }

/-- The tail of QueryLogs after the analyzer call: a success is forwarded,
any analyzer error is replaced by its fallback payload, and the HTTP status
is 200 either way. -/
noncomputable def handleAnalyzeOutcome (outcome : Except String (List LogGroup)) :
    HttpResponse :=
  match outcome with
  | .ok logGroups => .ok (toApiGroups logGroups)
  | .error e => .ok (toApiGroups (classifyAndFallback e))

/-- QueryLogs from handler.go: field validation, time-range validation, then
the analyzer call and the fallback ladder. -/
noncomputable def QueryLogs (req : QueryLogsRequest) (store : StoreResults) :
    HttpResponse :=
  if req.org = "" ∨ req.dashboard = "" ∨ req.panelTitle = "" ∨
      req.metricName = "" then
    .badRequest "Invalid request" "Missing required fields"
  else if ¬ req.startTime < req.endTime then
    .badRequest "Invalid time range" "Start time must be before end time"
  else
    handleAnalyzeOutcome (AnalyzeLogs store)

/-- A representative log line carrying one of the placeholder markers used by
the fallback payloads. -/
def markedLine (l : String) : Bool :=
  strStartsWith l "⚠️" || strStartsWith l "📝"

/-- A synthetic group is marked as placeholder data: its template ID is the
reserved "error" or starts with "mock_", it has at least one representative
log line, and its leading line carries a placeholder marker. -/
def markedGroup (g : LogGroup) : Prop :=
  (g.templateID = "error" ∨ strStartsWith g.templateID "mock_" = true) ∧
  g.representativeLogs ≠ [] ∧ markedLine g.representativeLogs.headI = true

/-! Helper lemmas about association-list maps. -/

theorem lookup_map_graph {α : Type} {f : String → α} {l : List String} {t : String}
    (ht : t ∈ l) : (l.map fun x => (x, f x)).lookup t = some (f t) := by
  induction l with
  | nil => cases ht
  | cons a as ih =>
    by_cases h : t = a
    · subst h; simp [List.lookup]
    · have hb : (t == a) = false := by simp [h]
      have hmem : t ∈ as := by
        rcases List.mem_cons.mp ht with h' | h'
        · exact absurd h' h
        · exact h'
      simp [List.lookup, hb, ih hmem]

theorem lookup_eq_none_of_not_mem {β : Type} {m : List (String × β)} {t : String}
    (h : t ∉ m.map Prod.fst) : m.lookup t = none := by
  rw [List.lookup_eq_none_iff]
  intro p hp
  simp only [bne_iff_ne, ne_eq]
  intro he
  exact h (List.mem_map.mpr ⟨p, hp, he.symm⟩)

theorem lookupCount_eq_zero {m : CountMap} {t : String} (h : t ∉ keys m) :
    lookupCount m t = 0 := by
  unfold lookupCount
  rw [lookup_eq_none_of_not_mem h]
  rfl

theorem mem_allTemplates {c b : CountMap} {t : String} :
    t ∈ allTemplates c b ↔ t ∈ keys c ∨ t ∈ keys b := by
  unfold allTemplates
  rw [List.mem_append, List.mem_filter]
  constructor
  · rintro (h | ⟨h, _⟩)
    · exact Or.inl h
    · exact Or.inr h
  · intro h
    by_cases hc : t ∈ keys c
    · exact Or.inl hc
    · rcases h with h | h
      · exact absurd h hc
      · refine Or.inr ⟨h, ?_⟩
        simp [List.contains, hc]

theorem nodup_allTemplates {c b : CountMap} (hc : (keys c).Nodup)
    (hb : (keys b).Nodup) : (allTemplates c b).Nodup := by
  unfold allTemplates
  refine List.Nodup.append hc (List.Nodup.filter _ hb) ?_
  intro t htc htf
  have hf := (List.mem_filter.mp htf).2
  rw [Bool.not_eq_eq_eq_not, Bool.not_true] at hf
  have helem : (keys c).elem t = true := List.elem_iff.mpr htc
  exact absurd helem (by simp [List.contains] at hf ⊢; exact hf)

/-- Claim C4: for every current window with start before end, the derived
baseline window ends exactly at the current start and has the same duration
as the current window: no gap and no overlap. -/
theorem baseline_window_adjacent_same_duration (s e : Int) (h : s < e) :
    (planBaselineWindow s e).2 = s ∧
    (planBaselineWindow s e).1 = s - (e - s) ∧
    (planBaselineWindow s e).2 - (planBaselineWindow s e).1 = e - s := by
  refine ⟨rfl, ?_, ?_⟩ <;> simp [planBaselineWindow] <;> ring

theorem baseline_window_adjacent_same_duration_witness :
    (0 : Int) < 3600 ∧
    ((planBaselineWindow 0 3600).2 = 0 ∧
     (planBaselineWindow 0 3600).1 = 0 - (3600 - 0) ∧
     (planBaselineWindow 0 3600).2 - (planBaselineWindow 0 3600).1 = 3600 - 0) :=
  ⟨by decide, baseline_window_adjacent_same_duration 0 3600 (by decide)⟩

theorem marked_connectivityMockGroups :
    ∀ g ∈ connectivityMockGroups, markedGroup g := by
  intro g hg
  simp only [connectivityMockGroups, List.mem_cons, List.not_mem_nil, or_false] at hg
  rcases hg with rfl | rfl | rfl <;>
    exact ⟨Or.inr (by decide), by simp, by decide⟩

theorem marked_schemaMissingGroups :
    ∀ g ∈ schemaMissingGroups, markedGroup g := by
  intro g hg
  simp only [schemaMissingGroups, List.mem_cons, List.not_mem_nil, or_false] at hg
  subst hg
  exact ⟨Or.inl rfl, by simp, by decide⟩

theorem marked_genericErrorGroups (e : String) :
    ∀ g ∈ genericErrorGroups e, markedGroup g := by
  intro g hg
  simp only [genericErrorGroups, List.mem_cons, List.not_mem_nil, or_false] at hg
  subst hg
  refine ⟨Or.inl rfl, by simp, ?_⟩
  show markedLine "⚠️  Hover log database encountered an error. Please contact support." = true
  decide

theorem marked_classifyAndFallback (e : String) :
    ∀ g ∈ classifyAndFallback e, markedGroup g := by
  intro g hg
  unfold classifyAndFallback at hg
  split at hg
  · exact marked_connectivityMockGroups g hg
  · split at hg
    · exact marked_schemaMissingGroups g hg
    · exact marked_genericErrorGroups e g hg

/-- Claim C1: on every storage-layer failure during a log query, QueryLogs
still answers with a success response whose payload is the fallback for that
failure, and every synthetic fallback group is marked as placeholder data by
a reserved template ID ("error" or a "mock_" prefixed one) and a
marker-carrying leading representative log line; the storage error never
crosses the caller-facing boundary as an error response. -/
theorem queryLogs_storage_failure_degrades_marked
    (req : QueryLogsRequest) (store : StoreResults) (e : String)
    (horg : req.org ≠ "") (hdash : req.dashboard ≠ "")
    (hpanel : req.panelTitle ≠ "") (hmetric : req.metricName ≠ "")
    (htime : req.startTime < req.endTime)
    (herr : AnalyzeLogs store = .error e) :
    QueryLogs req store = .ok (toApiGroups (classifyAndFallback e)) ∧
    ∀ g ∈ classifyAndFallback e, markedGroup g := by
  constructor
  · unfold QueryLogs
    rw [if_neg (by simp [horg, hdash, hpanel, hmetric]),
      if_neg (by simp [htime]), herr]
    rfl
  · exact marked_classifyAndFallback e

theorem queryLogs_storage_failure_degrades_marked_witness :
    QueryLogs ⟨"org", "dash", "panel", "metric", 0, 3600⟩
        ⟨.error "Connection refused", .ok [], fun _ => .ok []⟩ =
      .ok (toApiGroups (classifyAndFallback "Connection refused")) ∧
    ∀ g ∈ classifyAndFallback "Connection refused", markedGroup g :=
  queryLogs_storage_failure_degrades_marked
    ⟨"org", "dash", "panel", "metric", 0, 3600⟩
    ⟨.error "Connection refused", .ok [], fun _ => .ok []⟩
    "Connection refused" (by decide) (by decide) (by decide) (by decide)
    (by decide) rfl

/-- Claim C2 counterexample: a cancelled context surfaces from the analyzer
as the error string "context canceled", and the QueryLogs handler does not
return it as a cancellation error: it answers 200 with the fabricated,
marked generic fallback payload. -/
theorem cancellation_converted_to_fallback_counterexample :
    handleAnalyzeOutcome (.error "context canceled") =
      .ok (toApiGroups (genericErrorGroups "context canceled")) ∧
    (genericErrorGroups "context canceled").map LogGroup.templateID = ["error"] ∧
    (∀ g ∈ genericErrorGroups "context canceled", markedGroup g) := by
  refine ⟨?_, by simp [genericErrorGroups], marked_genericErrorGroups _⟩
  have h1 : (containsStr "context canceled" "Connection refused" ||
      containsStr "context canceled" "connect" ||
      containsStr "context canceled" "timeout") = false := by decide
  have h2 : (containsStr "context canceled" "does not exist" ||
      containsStr "context canceled" "UNKNOWN_TABLE") = false := by decide
  simp [handleAnalyzeOutcome, classifyAndFallback, h1, h2]

/-- Claim C2 (amended): AnalyzeLogs itself propagates every storage-layer
error, cancellation included, unchanged to its caller, and the standard Go
cancellation messages do not select the connectivity fallback branch; but
the QueryLogs handler converts every analyzer error, cancellation included,
into a success response carrying the marked generic fallback payload, so no
cancellation error crosses the HTTP boundary. -/
theorem cancellation_propagates_in_analyzer_but_masked_by_handler :
    (∀ store e, store.baselineCounts = .error e → AnalyzeLogs store = .error e) ∧
    (∀ store b e, store.baselineCounts = .ok b → store.currentCounts = .error e →
      AnalyzeLogs store = .error e) ∧
    classifyAndFallback "context canceled" =
      genericErrorGroups "context canceled" ∧
    classifyAndFallback "context deadline exceeded" =
      genericErrorGroups "context deadline exceeded" ∧
    (∀ e, handleAnalyzeOutcome (.error e) =
      .ok (toApiGroups (classifyAndFallback e))) := by
  refine ⟨?_, ?_, ?_, ?_, fun e => rfl⟩
  · intro store e h
    unfold AnalyzeLogs
    rw [h]
  · intro store b e hb hc
    unfold AnalyzeLogs
    rw [hb, hc]
  · unfold classifyAndFallback
    rw [if_neg (by decide), if_neg (by decide)]
  · unfold classifyAndFallback
    rw [if_neg (by decide), if_neg (by decide)]

theorem cancellation_propagates_in_analyzer_but_masked_by_handler_witness :
    AnalyzeLogs ⟨.error "context canceled", .ok [], fun _ => .ok []⟩ =
      .error "context canceled" :=
  cancellation_propagates_in_analyzer_but_masked_by_handler.1
    ⟨.error "context canceled", .ok [], fun _ => .ok []⟩ "context canceled" rfl

/-- Claim C5 counterexample: two iteration orders of the same score map (a
permutation of one another) with tied kl values produce different ranked
sequences, so two runs on the same input maps need not produce the same
output sequence: ties are broken by map iteration order, which Go randomizes
across runs. -/
theorem ranking_tie_order_depends_on_iteration_counterexample :
    ([("a", (0:ℝ)), ("b", 0)]).Perm [("b", (0:ℝ)), ("a", 0)] ∧
    topTemplateIDs [("a", (0:ℝ)), ("b", 0)] ≠
      topTemplateIDs [("b", (0:ℝ)), ("a", 0)] := by
  constructor
  · exact List.Perm.swap _ _ _
  · have h1 : topTemplateIDs [("a", (0:ℝ)), ("b", 0)] = ["a", "b"] := by
      simp [topTemplateIDs, sortedTopTemplates, List.insertionSort,
        List.orderedInsert, klGE]
    have h2 : topTemplateIDs [("b", (0:ℝ)), ("a", 0)] = ["b", "a"] := by
      simp [topTemplateIDs, sortedTopTemplates, List.insertionSort,
        List.orderedInsert, klGE]
    rw [h1, h2]
    decide

/-- Claim C5 (amended): the ranking step returns at most 10 template IDs,
ordered by weakly descending kl contribution; it returns all scored
templates when there are at most 10; with zero scored templates the
analyzer answers an empty result without consulting the representative-log
fetch; and the output is a deterministic function of the score map in its
iteration order, but tied contributions follow that iteration order, which
Go does not fix across runs, so determinism over the bare maps fails (see
the counterexample). -/
theorem ranking_topk_properties (kl : List (String × ℝ)) :
    (topTemplateIDs kl).length ≤ 10 ∧
    List.Pairwise klGE (sortedTopTemplates kl) ∧
    (kl.length ≤ 10 → (topTemplateIDs kl).Perm (kl.map Prod.fst)) ∧
    (∀ b c repsF, CalculateKLDivergence c b = [] →
      AnalyzeLogs ⟨.ok b, .ok c, repsF⟩ = .ok []) := by
  refine ⟨?_, ?_, ?_, ?_⟩
  · simp only [topTemplateIDs, sortedTopTemplates, List.length_map,
      List.length_take]
    exact min_le_left _ _
  · exact List.Pairwise.sublist (List.take_sublist _ _)
      (List.sorted_insertionSort klGE kl)
  · intro hlen
    have hsort := List.perm_insertionSort klGE kl
    have hle : (List.insertionSort klGE kl).length ≤ 10 := by
      rw [hsort.length_eq]; exact hlen
    unfold topTemplateIDs sortedTopTemplates
    rw [List.take_of_length_le hle]
    exact hsort.map Prod.fst
  · intro b c repsF h
    simp [AnalyzeLogs, h, sortedTopTemplates]

theorem ranking_topk_properties_witness :
    (topTemplateIDs [("T1", (1:ℝ))]).length ≤ 10 ∧
    ([("T1", (1:ℝ))].length ≤ 10 ∧
      (topTemplateIDs [("T1", (1:ℝ))]).Perm ([("T1", (1:ℝ))].map Prod.fst)) ∧
    AnalyzeLogs ⟨.ok [], .ok [], fun _ => .ok []⟩ = .ok [] :=
  ⟨(ranking_topk_properties [("T1", (1:ℝ))]).1,
   ⟨by decide, (ranking_topk_properties [("T1", (1:ℝ))]).2.2.1 (by decide)⟩,
   (ranking_topk_properties []).2.2.2 [] [] (fun _ => .ok []) rfl⟩

theorem mem_of_lookup_eq_some {β : Type} {m : List (String × β)} {t : String}
    {v : β} (h : m.lookup t = some v) : (t, v) ∈ m := by
  induction m with
  | nil => cases h
  | cons p ps ih =>
    obtain ⟨k, v'⟩ := p
    by_cases hk : t = k
    · subst hk
      simp [List.lookup] at h
      subst h
      exact List.mem_cons_self _ _
    · have hb : (t == k) = false := by simp [hk]
      rw [List.lookup, hb] at h
      exact List.mem_cons_of_mem _ (ih h)

theorem buildLogGroups_mem {topIDs : List String}
    {reps : List (String × List String)} {rel kl : List (String × ℝ)}
    {g : LogGroup} (hg : g ∈ buildLogGroups topIDs reps rel kl) :
    reps.lookup g.templateID = some g.representativeLogs := by
  unfold buildLogGroups at hg
  rcases List.mem_filterMap.mp hg with ⟨t, _, hmatch⟩
  cases hrep : reps.lookup t with
  | none => rw [hrep] at hmatch; cases hmatch
  | some logs =>
    rw [hrep] at hmatch
    cases hmatch
    exact hrep

/-- Claim C6: on a successful analysis, every returned LogGroup carries at
least one representative log line, and a template selected by the ranking
whose entry is absent from the representative-log fetch result is dropped
from the final result rather than emitted with an empty example list. The
store contract (section 6 of the spec) returns entries only for templates
with at least one stored example, which is the hvals hypothesis. -/
theorem log_groups_have_representative_logs
    (b c : CountMap)
    (repsF : List String → Except String (List (String × List String)))
    (m : List (String × List String))
    (hm : repsF (topTemplateIDs (CalculateKLDivergence c b)) = .ok m)
    (hvals : ∀ p ∈ m, p.2 ≠ []) :
    (∀ g ∈ resultGroups (AnalyzeLogs ⟨.ok b, .ok c, repsF⟩),
      g.representativeLogs ≠ [] ∧
      m.lookup g.templateID = some g.representativeLogs) ∧
    (∀ t, m.lookup t = none →
      t ∉ (resultGroups (AnalyzeLogs ⟨.ok b, .ok c, repsF⟩)).map
        LogGroup.templateID) := by
  have key : ∀ g ∈ resultGroups (AnalyzeLogs ⟨.ok b, .ok c, repsF⟩),
      m.lookup g.templateID = some g.representativeLogs := by
    intro g hg
    unfold AnalyzeLogs at hg
    by_cases he : (sortedTopTemplates (CalculateKLDivergence c b)).isEmpty
    · simp only [he, if_true] at hg
      exact absurd hg (List.not_mem_nil g)
    · simp only [he, if_false, Bool.false_eq_true] at hg
      rw [hm] at hg
      simp only [resultGroups, Except.toOption, Option.getD] at hg
      exact buildLogGroups_mem hg
  constructor
  · intro g hg
    have hl := key g hg
    exact ⟨hvals _ (mem_of_lookup_eq_some hl), hl⟩
  · intro t ht hmem
    rcases List.mem_map.mp hmem with ⟨g, hg, rfl⟩
    rw [key g hg] at ht
    cases ht

theorem log_groups_have_representative_logs_witness :
    ((∀ g ∈ resultGroups (AnalyzeLogs ⟨.ok [("T1", 1)], .ok [("T1", 1)],
        fun _ => .ok [("T1", ["ERROR: sample line"])]⟩),
      g.representativeLogs ≠ [] ∧
      ([("T1", ["ERROR: sample line"])] :
        List (String × List String)).lookup g.templateID =
        some g.representativeLogs) ∧
    (∀ t, ([("T1", ["ERROR: sample line"])] :
        List (String × List String)).lookup t = none →
      t ∉ (resultGroups (AnalyzeLogs ⟨.ok [("T1", 1)], .ok [("T1", 1)],
        fun _ => .ok [("T1", ["ERROR: sample line"])]⟩)).map
        LogGroup.templateID)) :=
  log_groups_have_representative_logs [("T1", 1)] [("T1", 1)]
    (fun _ => .ok [("T1", ["ERROR: sample line"])])
    [("T1", ["ERROR: sample line"])] rfl (by decide)

theorem smoothing_pos : (0:ℝ) < smoothing := by norm_num [smoothing]

/-- Claim C3: for both window totals positive and any template t in the
union of the two key sets, the computed KL contribution is exactly
p_cur(t) * ln(p_cur(t) / p_base(t)) with each probability smoothed as
(count + eps) / (total + eps * size-of-union) for eps the process-wide
1e-10 constant. -/
theorem kl_contribution_matches_smoothed_formula
    (cur base : CountMap) (t : String)
    (hc : 0 < totalCount cur) (hb : 0 < totalCount base)
    (ht : t ∈ keys cur ∨ t ∈ keys base) :
    (CalculateKLDivergence cur base).lookup t = some (
      (((lookupCount cur t : ℝ) + smoothing) /
        ((totalCount cur : ℝ) + smoothing * ((allTemplates cur base).length : ℝ))) *
      Real.log ((((lookupCount cur t : ℝ) + smoothing) /
        ((totalCount cur : ℝ) + smoothing * ((allTemplates cur base).length : ℝ))) /
        (((lookupCount base t : ℝ) + smoothing) /
        ((totalCount base : ℝ) + smoothing * ((allTemplates cur base).length : ℝ))))) := by
  have hmem : t ∈ allTemplates cur base := mem_allTemplates.mpr ht
  unfold CalculateKLDivergence
  rw [if_neg (by omega)]
  exact lookup_map_graph hmem

theorem kl_contribution_matches_smoothed_formula_witness :
    0 < totalCount [("T1", 2)] ∧ 0 < totalCount [("T1", 1), ("T2", 1)] ∧
    ("T1" ∈ keys [("T1", 2)] ∨ "T1" ∈ keys [("T1", 1), ("T2", 1)]) ∧
    (CalculateKLDivergence [("T1", 2)] [("T1", 1), ("T2", 1)]).lookup "T1" =
      some (
      (((lookupCount [("T1", 2)] "T1" : ℝ) + smoothing) /
        ((totalCount [("T1", 2)] : ℝ) + smoothing *
          ((allTemplates [("T1", 2)] [("T1", 1), ("T2", 1)]).length : ℝ))) *
      Real.log ((((lookupCount [("T1", 2)] "T1" : ℝ) + smoothing) /
        ((totalCount [("T1", 2)] : ℝ) + smoothing *
          ((allTemplates [("T1", 2)] [("T1", 1), ("T2", 1)]).length : ℝ))) /
        (((lookupCount [("T1", 1), ("T2", 1)] "T1" : ℝ) + smoothing) /
        ((totalCount [("T1", 1), ("T2", 1)] : ℝ) + smoothing *
          ((allTemplates [("T1", 2)] [("T1", 1), ("T2", 1)]).length : ℝ))))) :=
  ⟨by decide, by decide, by decide,
   kl_contribution_matches_smoothed_formula [("T1", 2)] [("T1", 1), ("T2", 1)]
     "T1" (by decide) (by decide) (by decide)⟩

/-- Claim C10: with both totals positive, each scoring function returns a
map whose key sequence is exactly the union of the two key sets (current
keys first, then baseline-only keys), so every template appearing in either
window is scored and no other key appears; membership in that union is
equivalent to membership in either input key set. -/
theorem score_key_sets_equal_union (cur base : CountMap)
    (hc : 0 < totalCount cur) (hb : 0 < totalCount base) :
    (CalculateKLDivergence cur base).map Prod.fst = allTemplates cur base ∧
    (CalculateRelativeChanges cur base).map Prod.fst = allTemplates cur base ∧
    (∀ t, t ∈ allTemplates cur base ↔ t ∈ keys cur ∨ t ∈ keys base) := by
  refine ⟨?_, ?_, fun t => mem_allTemplates⟩
  · unfold CalculateKLDivergence
    rw [if_neg (by omega), List.map_map]
    exact List.map_id' _
  · unfold CalculateRelativeChanges
    rw [if_neg (by omega), List.map_map]
    exact List.map_id' _

theorem score_key_sets_equal_union_witness :
    0 < totalCount [("T1", 2)] ∧ 0 < totalCount [("T2", 3)] ∧
    ((CalculateKLDivergence [("T1", 2)] [("T2", 3)]).map Prod.fst =
      allTemplates [("T1", 2)] [("T2", 3)] ∧
    (CalculateRelativeChanges [("T1", 2)] [("T2", 3)]).map Prod.fst =
      allTemplates [("T1", 2)] [("T2", 3)] ∧
    (∀ t, t ∈ allTemplates [("T1", 2)] [("T2", 3)] ↔
      t ∈ keys [("T1", 2)] ∨ t ∈ keys [("T2", 3)])) :=
  ⟨by decide, by decide,
   score_key_sets_equal_union [("T1", 2)] [("T2", 3)] (by decide) (by decide)⟩

theorem lookupCount_le_totalCount (m : CountMap) (t : String) :
    lookupCount m t ≤ totalCount m := by
  induction m with
  | nil => simp [lookupCount, totalCount, List.lookup]
  | cons p ps ih =>
    obtain ⟨k, v⟩ := p
    by_cases hk : t = k
    · subst hk
      simp [lookupCount, List.lookup, totalCount]
    · have hb : (t == k) = false := by simp [hk]
      simp only [lookupCount, List.lookup, hb] at *
      have : totalCount ps ≤ totalCount ((k, v) :: ps) := by
        simp [totalCount]
      omega

/-- Claim C7: with both window totals positive, every arithmetic step of
both scoring functions is numerically safe: each probability denominator is
strictly positive, each smoothed probability (hence each logarithm argument
and ratio) is strictly positive, and the relative-change denominator is
strictly positive; over the exact real embedding of the float computation
this is exactly the absence of every NaN and Inf source (no zero
denominator, no log of a non-positive number), so every kl contribution and
relative change is a well-defined finite real. -/
theorem score_computations_avoid_nan_inf (cur base : CountMap)
    (hc : 0 < totalCount cur) (hb : 0 < totalCount base) :
    ∀ t ∈ allTemplates cur base,
      0 < (totalCount cur : ℝ) +
        smoothing * ((allTemplates cur base).length : ℝ) ∧
      0 < (totalCount base : ℝ) +
        smoothing * ((allTemplates cur base).length : ℝ) ∧
      0 < ((lookupCount cur t : ℝ) + smoothing) /
        ((totalCount cur : ℝ) + smoothing * ((allTemplates cur base).length : ℝ)) ∧
      0 < ((lookupCount base t : ℝ) + smoothing) /
        ((totalCount base : ℝ) + smoothing * ((allTemplates cur base).length : ℝ)) ∧
      0 < (((lookupCount cur t : ℝ) + smoothing) /
        ((totalCount cur : ℝ) + smoothing * ((allTemplates cur base).length : ℝ))) /
        (((lookupCount base t : ℝ) + smoothing) /
        ((totalCount base : ℝ) + smoothing * ((allTemplates cur base).length : ℝ))) ∧
      0 < (lookupCount base t : ℝ) / (totalCount base : ℝ) + smoothing := by
  intro t _
  have hs := smoothing_pos
  have hcR : (0:ℝ) < (totalCount cur : ℝ) := by exact_mod_cast hc
  have hbR : (0:ℝ) < (totalCount base : ℝ) := by exact_mod_cast hb
  have hlen : (0:ℝ) ≤ ((allTemplates cur base).length : ℝ) := Nat.cast_nonneg _
  have hcc : (0:ℝ) ≤ (lookupCount cur t : ℝ) := Nat.cast_nonneg _
  have hbc : (0:ℝ) ≤ (lookupCount base t : ℝ) := Nat.cast_nonneg _
  have hd1 : 0 < (totalCount cur : ℝ) +
      smoothing * ((allTemplates cur base).length : ℝ) := by nlinarith
  have hd2 : 0 < (totalCount base : ℝ) +
      smoothing * ((allTemplates cur base).length : ℝ) := by nlinarith
  have hp1 : 0 < ((lookupCount cur t : ℝ) + smoothing) /
      ((totalCount cur : ℝ) + smoothing * ((allTemplates cur base).length : ℝ)) :=
    div_pos (by linarith) hd1
  have hp2 : 0 < ((lookupCount base t : ℝ) + smoothing) /
      ((totalCount base : ℝ) + smoothing * ((allTemplates cur base).length : ℝ)) :=
    div_pos (by linarith) hd2
  refine ⟨hd1, hd2, hp1, hp2, div_pos hp1 hp2, ?_⟩
  have : (0:ℝ) ≤ (lookupCount base t : ℝ) / (totalCount base : ℝ) :=
    div_nonneg hbc (le_of_lt hbR)
  linarith

theorem score_computations_avoid_nan_inf_witness :
    0 < totalCount [("T1", 2)] ∧ 0 < totalCount [("T2", 3)] ∧
    "T1" ∈ allTemplates [("T1", 2)] [("T2", 3)] ∧
    (0 < (totalCount [("T1", 2)] : ℝ) + smoothing *
      ((allTemplates [("T1", 2)] [("T2", 3)]).length : ℝ) ∧
     0 < (totalCount [("T2", 3)] : ℝ) + smoothing *
      ((allTemplates [("T1", 2)] [("T2", 3)]).length : ℝ) ∧
     0 < ((lookupCount [("T1", 2)] "T1" : ℝ) + smoothing) /
      ((totalCount [("T1", 2)] : ℝ) + smoothing *
        ((allTemplates [("T1", 2)] [("T2", 3)]).length : ℝ)) ∧
     0 < ((lookupCount [("T2", 3)] "T1" : ℝ) + smoothing) /
      ((totalCount [("T2", 3)] : ℝ) + smoothing *
        ((allTemplates [("T1", 2)] [("T2", 3)]).length : ℝ)) ∧
     0 < (((lookupCount [("T1", 2)] "T1" : ℝ) + smoothing) /
      ((totalCount [("T1", 2)] : ℝ) + smoothing *
        ((allTemplates [("T1", 2)] [("T2", 3)]).length : ℝ))) /
      (((lookupCount [("T2", 3)] "T1" : ℝ) + smoothing) /
      ((totalCount [("T2", 3)] : ℝ) + smoothing *
        ((allTemplates [("T1", 2)] [("T2", 3)]).length : ℝ))) ∧
     0 < (lookupCount [("T2", 3)] "T1" : ℝ) / (totalCount [("T2", 3)] : ℝ) +
      smoothing) :=
  ⟨by decide, by decide, by decide,
   score_computations_avoid_nan_inf [("T1", 2)] [("T2", 3)]
     (by decide) (by decide) "T1" (by decide)⟩

theorem relChange_bounds (cur base : CountMap) (t : String)
    (hc : 0 < totalCount cur) (hb : 0 < totalCount base) :
    -1 < ((lookupCount cur t : ℝ) / (totalCount cur : ℝ) -
        (lookupCount base t : ℝ) / (totalCount base : ℝ)) /
      ((lookupCount base t : ℝ) / (totalCount base : ℝ) + smoothing) ∧
    ((lookupCount cur t : ℝ) / (totalCount cur : ℝ) -
        (lookupCount base t : ℝ) / (totalCount base : ℝ)) /
      ((lookupCount base t : ℝ) / (totalCount base : ℝ) + smoothing) ≤
      10 ^ 10 := by
  have hs := smoothing_pos
  have hcR : (0:ℝ) < (totalCount cur : ℝ) := by exact_mod_cast hc
  have hbR : (0:ℝ) < (totalCount base : ℝ) := by exact_mod_cast hb
  set fc : ℝ := (lookupCount cur t : ℝ) / (totalCount cur : ℝ) with hfc
  set fb : ℝ := (lookupCount base t : ℝ) / (totalCount base : ℝ) with hfb
  have hfc0 : 0 ≤ fc := div_nonneg (Nat.cast_nonneg _) (le_of_lt hcR)
  have hfb0 : 0 ≤ fb := div_nonneg (Nat.cast_nonneg _) (le_of_lt hbR)
  have hfc1 : fc ≤ 1 := by
    rw [hfc, div_le_one hcR]
    exact_mod_cast lookupCount_le_totalCount cur t
  have hd : 0 < fb + smoothing := by linarith
  constructor
  · rw [lt_div_iff hd]
    linarith
  · rw [div_le_iff hd]
    have hmul : (10:ℝ) ^ 10 * smoothing = 1 := by norm_num [smoothing]
    have hfbmul : (0:ℝ) ≤ 10 ^ 10 * fb := by positivity
    nlinarith

/-- Claim C9 counterexample (negation of the unboundedness part): the
relative-change values produced by the code are globally bounded above by
10 ^ 10 = 1 / eps, so they are not unbounded above; the bound is forced by
the fixed smoothing of the denominator against a numerator that is a
difference of two frequencies in [0, 1]. -/
theorem relative_change_bounded_counterexample :
    ∃ M : ℝ, ∀ cur base : CountMap,
      ∀ p ∈ CalculateRelativeChanges cur base, p.2 ≤ M := by
  refine ⟨10 ^ 10, fun cur base p hp => ?_⟩
  unfold CalculateRelativeChanges at hp
  by_cases h : totalCount cur = 0 ∨ totalCount base = 0
  · rw [if_pos h] at hp
    cases hp
  · rw [if_neg h] at hp
    rcases List.mem_map.mp hp with ⟨t, _, rfl⟩
    exact (relChange_bounds cur base t (by omega) (by omega)).2

/-- Claim C9 (amended): for both totals positive and any template t of the
union, the computed relative change is exactly
(freq_cur - freq_base) / (freq_base + eps) over raw unsmoothed frequencies
with only the denominator smoothed; every such value is strictly greater
than -1; but it is not unbounded above: it is at most 1 / eps = 10 ^ 10
(see the counterexample). -/
theorem relative_change_formula_and_bounds (cur base : CountMap) (t : String)
    (hc : 0 < totalCount cur) (hb : 0 < totalCount base)
    (ht : t ∈ keys cur ∨ t ∈ keys base) :
    (CalculateRelativeChanges cur base).lookup t = some
      (((lookupCount cur t : ℝ) / (totalCount cur : ℝ) -
        (lookupCount base t : ℝ) / (totalCount base : ℝ)) /
      ((lookupCount base t : ℝ) / (totalCount base : ℝ) + smoothing)) ∧
    -1 < ((lookupCount cur t : ℝ) / (totalCount cur : ℝ) -
        (lookupCount base t : ℝ) / (totalCount base : ℝ)) /
      ((lookupCount base t : ℝ) / (totalCount base : ℝ) + smoothing) ∧
    ((lookupCount cur t : ℝ) / (totalCount cur : ℝ) -
        (lookupCount base t : ℝ) / (totalCount base : ℝ)) /
      ((lookupCount base t : ℝ) / (totalCount base : ℝ) + smoothing) ≤
      10 ^ 10 := by
  have hmem : t ∈ allTemplates cur base := mem_allTemplates.mpr ht
  obtain ⟨h1, h2⟩ := relChange_bounds cur base t hc hb
  refine ⟨?_, h1, h2⟩
  unfold CalculateRelativeChanges
  rw [if_neg (by omega)]
  exact lookup_map_graph hmem

theorem relative_change_formula_and_bounds_witness :
    0 < totalCount [("T1", 2)] ∧ 0 < totalCount [("T1", 1), ("T2", 1)] ∧
    ("T1" ∈ keys [("T1", 2)] ∨ "T1" ∈ keys [("T1", 1), ("T2", 1)]) ∧
    ((CalculateRelativeChanges [("T1", 2)] [("T1", 1), ("T2", 1)]).lookup "T1" =
      some
      (((lookupCount [("T1", 2)] "T1" : ℝ) / (totalCount [("T1", 2)] : ℝ) -
        (lookupCount [("T1", 1), ("T2", 1)] "T1" : ℝ) /
          (totalCount [("T1", 1), ("T2", 1)] : ℝ)) /
      ((lookupCount [("T1", 1), ("T2", 1)] "T1" : ℝ) /
          (totalCount [("T1", 1), ("T2", 1)] : ℝ) + smoothing)) ∧
    -1 < ((lookupCount [("T1", 2)] "T1" : ℝ) / (totalCount [("T1", 2)] : ℝ) -
        (lookupCount [("T1", 1), ("T2", 1)] "T1" : ℝ) /
          (totalCount [("T1", 1), ("T2", 1)] : ℝ)) /
      ((lookupCount [("T1", 1), ("T2", 1)] "T1" : ℝ) /
          (totalCount [("T1", 1), ("T2", 1)] : ℝ) + smoothing) ∧
    ((lookupCount [("T1", 2)] "T1" : ℝ) / (totalCount [("T1", 2)] : ℝ) -
        (lookupCount [("T1", 1), ("T2", 1)] "T1" : ℝ) /
          (totalCount [("T1", 1), ("T2", 1)] : ℝ)) /
      ((lookupCount [("T1", 1), ("T2", 1)] "T1" : ℝ) /
          (totalCount [("T1", 1), ("T2", 1)] : ℝ) + smoothing) ≤ 10 ^ 10) :=
  ⟨by decide, by decide, by decide,
   relative_change_formula_and_bounds [("T1", 2)] [("T1", 1), ("T2", 1)] "T1"
     (by decide) (by decide) (by decide)⟩

theorem sum_map_sub_real (l : List String) (f g : String → ℝ) :
    (l.map fun t => f t - g t).sum = (l.map f).sum - (l.map g).sum := by
  induction l with
  | nil => simp
  | cons a as ih => simp [ih]; ring

theorem sum_map_add_real (l : List String) (f g : String → ℝ) :
    (l.map fun t => f t + g t).sum = (l.map f).sum + (l.map g).sum := by
  induction l with
  | nil => simp
  | cons a as ih => simp [ih]; ring

theorem sum_map_div_real (l : List String) (f : String → ℝ) (d : ℝ) :
    (l.map fun t => f t / d).sum = (l.map f).sum / d := by
  induction l with
  | nil => simp
  | cons a as ih => simp [ih, add_div]

theorem sum_map_const_real (l : List String) (c : ℝ) :
    (l.map fun _ => c).sum = (l.length : ℝ) * c := by
  induction l with
  | nil => simp
  | cons a as ih =>
    simp [ih]
    ring

theorem sum_map_natCast (l : List String) (g : String → ℕ) :
    (l.map fun t => ((g t : ℕ) : ℝ)).sum = (((l.map g).sum : ℕ) : ℝ) := by
  induction l with
  | nil => simp
  | cons a as ih => simp [ih]

theorem sum_lookup_keys (m : CountMap) (h : (keys m).Nodup) :
    ((keys m).map (lookupCount m)).sum = totalCount m := by
  induction m with
  | nil => rfl
  | cons p ps ih =>
    obtain ⟨k, v⟩ := p
    have hkeys : keys ((k, v) :: ps) = k :: keys ps := rfl
    rw [hkeys] at h ⊢
    have hknot : k ∉ keys ps := (List.nodup_cons.mp h).1
    have hnod : (keys ps).Nodup := (List.nodup_cons.mp h).2
    have hhead : lookupCount ((k, v) :: ps) k = v := by
      simp [lookupCount, List.lookup]
    have htail : (keys ps).map (lookupCount ((k, v) :: ps)) =
        (keys ps).map (lookupCount ps) := by
      refine List.map_congr_left fun t htmem => ?_
      have hne : t ≠ k := fun he => hknot (he ▸ htmem)
      have hbne : (t == k) = false := by simp [hne]
      simp [lookupCount, List.lookup, hbne]
    rw [List.map_cons, hhead, List.sum_cons, htail, ih hnod]
    simp [totalCount]

theorem sum_map_superset {l L : List String} {f : String → ℕ}
    (hl : l.Nodup) (hL : L.Nodup) (hsub : ∀ t ∈ l, t ∈ L)
    (hzero : ∀ t ∈ L, t ∉ l → f t = 0) :
    (L.map f).sum = (l.map f).sum := by
  rw [← List.sum_toFinset f hl, ← List.sum_toFinset f hL]
  refine (Finset.sum_subset ?_ ?_).symm
  · intro x hx
    exact List.mem_toFinset.mpr (hsub x (List.mem_toFinset.mp hx))
  · intro x hx hnx
    exact hzero x (List.mem_toFinset.mp hx) (fun hmem => hnx (List.mem_toFinset.mpr hmem))

theorem sum_lookup_allTemplates_cur (cur base : CountMap)
    (hcn : (keys cur).Nodup) (hbn : (keys base).Nodup) :
    ((allTemplates cur base).map (lookupCount cur)).sum = totalCount cur := by
  rw [sum_map_superset hcn (nodup_allTemplates hcn hbn)
    (fun t ht => mem_allTemplates.mpr (Or.inl ht))
    (fun t _ htn => lookupCount_eq_zero htn)]
  exact sum_lookup_keys cur hcn

theorem sum_lookup_allTemplates_base (cur base : CountMap)
    (hcn : (keys cur).Nodup) (hbn : (keys base).Nodup) :
    ((allTemplates cur base).map (lookupCount base)).sum = totalCount base := by
  rw [sum_map_superset hbn (nodup_allTemplates hcn hbn)
    (fun t ht => mem_allTemplates.mpr (Or.inr ht))
    (fun t _ htn => lookupCount_eq_zero htn)]
  exact sum_lookup_keys base hbn

theorem gibbs_list (l : List String) (P Q : String → ℝ)
    (hP : ∀ t ∈ l, 0 < P t) (hQ : ∀ t ∈ l, 0 < Q t)
    (hsum : (l.map Q).sum ≤ (l.map P).sum) :
    0 ≤ (l.map fun t => P t * Real.log (P t / Q t)).sum := by
  have key : ∀ t ∈ l, P t - Q t ≤ P t * Real.log (P t / Q t) := by
    intro t ht
    have hp := hP t ht
    have hq := hQ t ht
    have hx : 0 < Q t / P t := div_pos hq hp
    have hlog : Real.log (Q t / P t) ≤ Q t / P t - 1 :=
      Real.log_le_sub_one_of_pos hx
    have hinv : Real.log (P t / Q t) = - Real.log (Q t / P t) := by
      rw [← Real.log_inv, inv_div]
    have h2 : P t * (Q t / P t - 1) = Q t - P t := by
      field_simp
    have h3 : P t * Real.log (Q t / P t) ≤ Q t - P t := by
      calc P t * Real.log (Q t / P t) ≤ P t * (Q t / P t - 1) :=
            mul_le_mul_of_nonneg_left hlog (le_of_lt hp)
        _ = Q t - P t := h2
    rw [hinv]
    linarith
  calc (0:ℝ) ≤ (l.map P).sum - (l.map Q).sum := by linarith
    _ = (l.map fun t => P t - Q t).sum := (sum_map_sub_real l P Q).symm
    _ ≤ (l.map fun t => P t * Real.log (P t / Q t)).sum := List.sum_le_sum key

/-- The smoothed probabilities over the union sum to exactly 1 for a count
map whose keys are unique, total positive. -/
theorem smoothed_probs_sum_to_one (m : CountMap) (U : List String)
    (hsum : (U.map (lookupCount m)).sum = totalCount m)
    (hpos : 0 < (totalCount m : ℝ) + smoothing * (U.length : ℝ)) :
    (U.map fun t => ((lookupCount m t : ℝ) + smoothing) /
      ((totalCount m : ℝ) + smoothing * (U.length : ℝ))).sum = 1 := by
  rw [sum_map_div_real, sum_map_add_real, sum_map_natCast, hsum,
    sum_map_const_real]
  rw [div_eq_one_iff_eq (ne_of_gt hpos)]
  ring

/-- Claim C8: for key-unique count maps with both totals positive, the sum
of the computed kl contributions over the full union of template IDs is
non-negative: it is the forward KL divergence between the two smoothed
distributions, which both sum to one over the union. The exact real
embedding makes the inequality exact; the float computation matches it
within floating-point tolerance. -/
theorem kl_divergence_sum_nonneg (cur base : CountMap)
    (hcn : (keys cur).Nodup) (hbn : (keys base).Nodup)
    (hc : 0 < totalCount cur) (hb : 0 < totalCount base) :
    0 ≤ ((CalculateKLDivergence cur base).map Prod.snd).sum := by
  have hs := smoothing_pos
  have hcR : (0:ℝ) < (totalCount cur : ℝ) := by exact_mod_cast hc
  have hbR : (0:ℝ) < (totalCount base : ℝ) := by exact_mod_cast hb
  have hlen : (0:ℝ) ≤ ((allTemplates cur base).length : ℝ) := Nat.cast_nonneg _
  have hd1 : 0 < (totalCount cur : ℝ) +
      smoothing * ((allTemplates cur base).length : ℝ) := by nlinarith
  have hd2 : 0 < (totalCount base : ℝ) +
      smoothing * ((allTemplates cur base).length : ℝ) := by nlinarith
  unfold CalculateKLDivergence
  rw [if_neg (by omega), List.map_map]
  show 0 ≤ ((allTemplates cur base).map fun t =>
    (((lookupCount cur t : ℝ) + smoothing) /
      ((totalCount cur : ℝ) + smoothing * ((allTemplates cur base).length : ℝ))) *
    Real.log ((((lookupCount cur t : ℝ) + smoothing) /
      ((totalCount cur : ℝ) + smoothing * ((allTemplates cur base).length : ℝ))) /
      (((lookupCount base t : ℝ) + smoothing) /
      ((totalCount base : ℝ) + smoothing * ((allTemplates cur base).length : ℝ))))).sum
  refine gibbs_list (allTemplates cur base) _ _
    (fun t _ => div_pos
      (by nlinarith [(Nat.cast_nonneg (lookupCount cur t) :
        (0:ℝ) ≤ (lookupCount cur t : ℝ))]) hd1)
    (fun t _ => div_pos
      (by nlinarith [(Nat.cast_nonneg (lookupCount base t) :
        (0:ℝ) ≤ (lookupCount base t : ℝ))]) hd2)
    ?_
  rw [smoothed_probs_sum_to_one base (allTemplates cur base)
    (sum_lookup_allTemplates_base cur base hcn hbn) hd2,
    smoothed_probs_sum_to_one cur (allTemplates cur base)
    (sum_lookup_allTemplates_cur cur base hcn hbn) hd1]

theorem kl_divergence_sum_nonneg_witness :
    (keys [("T1", 2)]).Nodup ∧ (keys [("T1", 1), ("T2", 1)]).Nodup ∧
    0 < totalCount [("T1", 2)] ∧ 0 < totalCount [("T1", 1), ("T2", 1)] ∧
    0 ≤ ((CalculateKLDivergence [("T1", 2)] [("T1", 1), ("T2", 1)]).map
      Prod.snd).sum :=
  ⟨by decide, by decide, by decide, by decide,
   kl_divergence_sum_nonneg [("T1", 2)] [("T1", 1), ("T2", 1)]
     (by decide) (by decide) (by decide) (by decide)⟩

end GrafanaPluginApi
